import Mathlib

/-!
Verification development for the v-thread RPC layer (main-thread side in
MainThread.ts and VTransferable.ts, worker side in the VThreadable module,
shared in Event.ts and utils.ts).  Each component that the properties below
talk about is translated here as an executable Lean definition; theorems
about those definitions settle the stated properties.
-/

namespace VThreadSpec

/-! ## JavaScript value model

A small model of the JavaScript values the RPC layer manipulates.  Functions
are represented as named references; their behaviour is supplied by an
explicit environment when a call is dispatched.  Property lookup ignores
prototype chains, which the library never relies on. -/

inductive JSVal where
  | vundefined : JSVal
  | vnull : JSVal
  | vbool : Bool → JSVal
  | vnum : Int → JSVal
  | vstr : String → JSVal
  | vfn : String → JSVal
  | vobj : List (String × JSVal) → JSVal

/-- Property read on a value: an own-property lookup on object literals;
every other shape (and a missing key) yields undefined, as the untyped
reads in the source do. -/
def getProp : JSVal → String → JSVal
  | .vobj fields, p =>
    match fields.find? (fun f => f.1 == p) with
    | some f => f.2
    | none => .vundefined
  | _, _ => .vundefined

/-- String conversion used by the template literal in the
"is not a function" message of the exec handlers. -/
def displayVal : JSVal → String
  | .vundefined => "undefined"
  | .vnull => "null"
  | .vbool b => if b then "true" else "false"
  | .vnum n => toString n
  | .vstr s => s
  | .vfn name => "function " ++ name
  | .vobj _ => "[object Object]"

/-! ## Stack frames and error envelopes -/

/-- One structured stack frame as produced by the frame-parsing collaborator
(error-stack-parser): the function name and the raw source line. -/
structure StackFrame where
  functionName : String
  source : String
deriving DecidableEq, Repr

/-- The transportable form of a thrown error, as built by attaching
stackFrames to the error and running it through serialize-error: name,
message, the captured frames of the originating context, and the remaining
enumerable own properties (rendered as string key/value pairs). -/
structure ErrEnvelope where
  name : String
  message : String
  stackFrames : Option (List StackFrame)
  props : List (String × String)
deriving DecidableEq, Repr

/-- The data posted back on a reply port by an exec handler: err is set on
failure, ret on success (the other stays undefined). -/
structure ExecReply where
  err : Option ErrEnvelope
  ret : JSVal

/-- Substring test on character lists, used to model
String.prototype.indexOf(pat) > -1. -/
def charsHaveLead : List Char → List Char → Bool
  | [], _ => true
  | _ :: _, [] => false
  | p :: ps, c :: cs => p == c && charsHaveLead ps cs

def charsContain (pat : List Char) : List Char → Bool
  | [] => charsHaveLead pat []
  | c :: cs => charsHaveLead pat (c :: cs) || charsContain pat cs

def strContains (s pat : String) : Bool :=
  charsContain pat.data s.data

/-- Newline join used for the merged stack string. -/
def joinLines : List String → String
  | [] => ""
  | [s] => s
  | s :: rest => s ++ "\n" ++ joinLines rest

/-! ## processMessage (utils.ts)

Reply processing on the calling side: on success return ret; on failure
rebuild a local error from the envelope and throw it.  HydratedErr records
everything observable about the rebuilt error: the constructor that was
used, the own name / message properties (copied from the envelope by
Object.defineProperties, which copies every own property of the serialized
error), the remaining copied properties, and the merged stack string. -/

structure HydratedErr where
  ctor : String
  name : String
  message : String
  props : List (String × String)
  stack : String
deriving DecidableEq, Repr

/-- Drop the outermost local frame when it is the proxy invocation
trampoline (functionName containing Object.apply), as processMessage does
before merging. -/
def dropApplyFrame (frames : List StackFrame) : List StackFrame :=
  match frames with
  | f :: rest => if strContains f.functionName "Object.apply" then rest else f :: rest
  | [] => []

/-- processMessage from utils.ts.  selfGlobals lists the error-constructor
names resolvable on the global self object; localFrames are the parsed
frames of the Error captured at call time (the call sites always pass a
real Error, so the localErrForStack truthiness guard reduces to whether the
envelope carries stackFrames).  A thrown error is an Except.error result;
the fallback branch builds a plain Error whose own stack is fresh (modelled
as the empty string). -/
def processMessage (selfGlobals : List String) (localFrames : List StackFrame)
    (data : ExecReply) : Except HydratedErr JSVal :=
  match data.err with
  | none => .ok data.ret
  | some env =>
    let localStack := dropApplyFrame localFrames
    match env.stackFrames with
    | some remote =>
      let ctor := if selfGlobals.contains env.name then env.name else "Error"
      .error { ctor := ctor, name := env.name, message := env.message, props := env.props,
               stack := joinLines ((remote ++ localStack).map StackFrame.source) }
    | none =>
      .error { ctor := "Error", name := "Error",
               message := "Unknown error occured in v-thread", props := [], stack := "" }

/-! ## Promise outcomes

The proxy call paths build their result with a Promise whose executor is an
async function.  In JavaScript such an executor returns a promise of its
own that nobody observes: an exception raised in its body (at or after the
first await) rejects only that discarded promise, so the promise under
construction is settled only by an explicit resolve or reject call. -/

inductive PromiseOutcome (ε : Type) (α : Type) where
  | resolved : α → PromiseOutcome ε α
  | rejected : ε → PromiseOutcome ε α
  | pending : PromiseOutcome ε α
deriving DecidableEq, Repr

/-- Outcome of a promise built as
new Promise of an async executor whose only settling statement is
resolve applied to a computation: a successful computation resolves the
promise; a throw during the computation is swallowed with the executor and
the promise stays pending forever.  This is the shape of the apply trap in
generateProxy, of delegateMsgEnsured and of delegateMessage. -/
def asyncExecutorResolve : Except ε α → PromiseOutcome ε α
  | .ok a => .resolved a
  | .error _ => .pending

/-- Outcome of the proxy call promise built by the apply trap of
generateProxy once the reply has arrived: resolve is applied to
processMessage of the reply inside the async executor. -/
def applyTrapOutcome (selfGlobals : List String) (localFrames : List StackFrame)
    (data : ExecReply) : PromiseOutcome HydratedErr JSVal :=
  asyncExecutorResolve (processMessage selfGlobals localFrames data)

/-! ## Transfer registry (VTransferable.ts)

The weak side table keyed by object identity.  Values are modelled from the
marking perspective: ArrayBuffers and ImageBitmaps (the buffer-like types),
other objects, and non-object primitives, each carrying an identity tag so
that distinct objects are distinct keys. -/

inductive TVal where
  | buf : Nat → TVal
  | bitmap : Nat → TVal
  | obj : Nat → TVal
  | prim : Int → TVal
  | tstr : String → TVal
deriving DecidableEq, Repr

/-- The typeof value test: buffers, bitmaps and plain objects have typeof
object; numbers and strings do not. -/
def TVal.isObjectType : TVal → Bool
  | .buf _ => true
  | .bitmap _ => true
  | .obj _ => true
  | .prim _ => false
  | .tstr _ => false

/-- The instanceof ArrayBuffer or instanceof ImageBitmap test. -/
def TVal.isBufferLike : TVal → Bool
  | .buf _ => true
  | .bitmap _ => true
  | _ => false

/-- The wiredTransferables WeakMap: identity-keyed association list. -/
abbrev Registry : Type := List (TVal × List TVal)

def weakGet (r : Registry) (v : TVal) : Option (List TVal) :=
  match List.find? (fun e => e.1 == v) r with
  | some e => some e.2
  | none => none

def weakHas (r : Registry) (v : TVal) : Bool :=
  (weakGet r v).isSome

def weakDelete (r : Registry) (v : TVal) : Registry :=
  List.filter (fun e => e.1 != v) r

def weakSet (r : Registry) (v : TVal) (ts : List TVal) : Registry :=
  (v, ts) :: weakDelete r v

/-- markAsVTransferable from VTransferable.ts.  The whole body is guarded
by typeof value being object; inside the guard, an empty explicit list is
replaced by the value itself, every entry must be buffer-like or a
TypeError is thrown, and otherwise the association is stored in the weak
table.  A thrown TypeError is an Except.error result. -/
def markAsVTransferable (r : Registry) (value : TVal) (transferables : List TVal) :
    Except String Registry :=
  if value.isObjectType then
    let ts := if transferables.isEmpty then [value] else transferables
    if ts.all TVal.isBufferLike then .ok (weakSet r value ts)
    else .error "Only ArrayBuffer(s) and ImageBitmap(s) can be transfered"
  else .ok r

/-- The argument scan in the apply trap of generateProxy (and of the worker
parentProxy): for each argument present in the weak table, push its buffer
list onto the transfer list and delete the entry. -/
def consumeArgMarks (r : Registry) (args : List TVal) : List (List TVal) × Registry :=
  args.foldl
    (fun acc arg =>
      match weakGet acc.2 arg with
      | some bufs => (acc.1 ++ [bufs], weakDelete acc.2 arg)
      | none => acc)
    ([], r)

/-- The reply posting of the exec handlers: the second postMessage argument
is the weak-table lookup for the return value, with no deletion. -/
def returnTransferList (r : Registry) (ret : TVal) : Option (List TVal) × Registry :=
  (weakGet r ret, r)

/-! ## Call proxy (generateProxy in MainThread.ts, parentProxy in the
worker module)

The proxy object keeps one mutable chain buffer.  The get trap appends the
property name and hands back the proxy itself; the apply trap snapshots the
chain into the outgoing payload and resets the buffer. -/

structure ChainState where
  chain : List String
deriving DecidableEq, Repr

/-- The value a get trap hands back: always the proxy object itself. -/
inductive ProxyRef where
  | self : ProxyRef
deriving DecidableEq, Repr

def proxyGet (s : ChainState) (p : String) : ChainState × ProxyRef :=
  ({ chain := s.chain ++ [p] }, .self)

def proxyGets (s : ChainState) (ps : List String) : ChainState :=
  ps.foldl (fun st p => (proxyGet st p).1) s

/-- The message payload built by the apply trap. -/
structure ExecPayload (α : Type) where
  fnChain : List String
  args : List α
  tag : String
deriving DecidableEq, Repr

/-- The apply trap: snapshot the current chain and the argument list into
the payload, reset the chain buffer to empty. -/
def proxyApply (s : ChainState) (args : List α) : ChainState × ExecPayload α :=
  ({ chain := [] },
   { fnChain := s.chain, args := args, tag := "__vthread_parent_exec_child" })

/-! ## Exec dispatch (the parent-exec-child branch of the worker handler
and the child-exec-parent branch of handleWorkerMessage)

Target resolution is the reduce over the chain with a per-step fall back to
the root surface whenever the accumulated value lacks the property. -/

/-- A thrown application error before envelope encoding. -/
structure AppErr where
  name : String
  message : String
deriving DecidableEq, Repr

/-- Behaviour of the named functions reachable from a surface: name,
receiver, arguments to the awaited outcome. -/
abbrev FnEnv : Type := String → JSVal → List JSVal → Except AppErr JSVal

/-- The frame-parsing collaborator applied to a thrown error. -/
abbrev FrameParser : Type := AppErr → List StackFrame

/-- Attach captured frames and serialize, as both exec handlers do in
their catch blocks. -/
def encodeErr (pf : FrameParser) (e : AppErr) : ErrEnvelope :=
  { name := e.name, message := e.message, stackFrames := some (pf e), props := [] }

/-- One property read inside the reduce: reading a property of undefined
or null throws; every other read yields the (possibly undefined) own
property. -/
def propAccess : JSVal → String → Except String JSVal
  | .vundefined, p => .error ("Cannot read property " ++ p ++ " of undefined")
  | .vnull, p => .error ("Cannot read property " ++ p ++ " of null")
  | v, p => .ok (getProp v p)

/-- One reduce step: take the property of the accumulated value; when that
property is undefined, fall back to the same property of the root
surface. -/
def resolveStep (provider : JSVal) (accu : JSVal) (p : String) : Except String JSVal :=
  match propAccess accu p with
  | .error e => .error e
  | .ok .vundefined => propAccess provider p
  | .ok v => .ok v

/-- The full reduce over the chain with the empty object literal as the
initial accumulator. -/
def resolveChain (provider : JSVal) (chain : List String) : Except String JSVal :=
  chain.foldlM (resolveStep provider) (.vobj [])

/-- The exec branch body: resolve the chain (a resolution throw is caught
and rethrown as a plain Error carrying only the message), reject
non-callable results with a TypeError, and otherwise invoke the function
with the surface as receiver, awaiting its outcome.  The label is the
receiver name used in the TypeError message (worker on the worker side,
Host on the main-thread side). -/
def handleExec (label : String) (pf : FrameParser) (fenv : FnEnv) (provider : JSVal)
    (chain : List String) (args : List JSVal) : ExecReply :=
  match resolveChain provider chain with
  | .error m =>
    { err := some (encodeErr pf { name := "Error", message := m }), ret := .vundefined }
  | .ok (.vfn fname) =>
    match fenv fname provider args with
    | .ok r => { err := none, ret := r }
    | .error e => { err := some (encodeErr pf e), ret := .vundefined }
  | .ok v =>
    { err := some (encodeErr pf
        { name := "TypeError", message := label ++ "." ++ displayVal v ++ " is not a function" }),
      ret := .vundefined }

/-- The surface of the worked example: an object with a nested math.add. -/
def mathSurface : JSVal :=
  .vobj [("math", .vobj [("add", .vfn "add")])]

/-- Function behaviour for the worked example: add sums two numbers. -/
def mathEnv : FnEnv := fun fname _ args =>
  if fname = "add" then
    match args with
    | [.vnum a, .vnum b] => .ok (.vnum (a + b))
    | _ => .error { name := "TypeError", message := "bad arguments" }
  else .error { name := "TypeError", message := "unknown function" }

/-- A concrete frame parser for closed evaluations. -/
def noFrames : FrameParser := fun _ => []

/-! ## Worker lifecycle, main-thread side (MainThread.ts)

The WorkerState enum and the fields of VThread that govern readiness:
the cached workerInitPromise (identified here by a numeric id), plus
bookkeeping counters that record how many connect executors have been
started. -/

inductive WorkerState where
  | Loading : WorkerState
  | Listening : WorkerState
  | Ready : WorkerState
  | Killed : WorkerState
deriving DecidableEq, Repr

/-- Numeric enum values, used by the ordered comparisons in the source. -/
def WorkerState.toNat : WorkerState → Nat
  | .Loading => 0
  | .Listening => 1
  | .Ready => 2
  | .Killed => 3

structure MTState where
  workerState : WorkerState
  workerInitPromise : Option Nat
  nextPromiseId : Nat
  connectStarts : Nat
deriving DecidableEq, Repr

/-- startWorker: when a workerInitPromise already exists it is returned
unchanged; otherwise a fresh promise is created (its executor starts
running, counted by connectStarts) and cached.  The returned Nat is the
identity of the promise handed to the caller. -/
def startWorker (s : MTState) : MTState × Nat :=
  match s.workerInitPromise with
  | some pid => (s, pid)
  | none =>
    ({ s with workerInitPromise := some s.nextPromiseId,
              nextPromiseId := s.nextPromiseId + 1,
              connectStarts := s.connectStarts + 1 },
     s.nextPromiseId)

/-- The channel messages a connect executor sends, as a function of the
worker state it observes when it starts: a ping handshake when the state is
below Listening (the retry loop is collapsed to its successful handshake),
then the init message unless the state is already Ready. -/
inductive ConnectMsg where
  | ping : ConnectMsg
  | initMsg : ConnectMsg
deriving DecidableEq, Repr

def connectExecutorMsgs (st : WorkerState) : List ConnectMsg :=
  (if st.toNat < WorkerState.Listening.toNat then [ConnectMsg.ping] else [])
    ++ (if st = WorkerState.Ready then [] else [ConnectMsg.initMsg])

/-- ensureWorkerReady: throw the terminal error once the worker has been
killed; otherwise run startWorker unless the worker is already Ready.  The
optional Nat is the connect promise the caller awaits. -/
def ensureWorkerReady (s : MTState) : Except String (MTState × Option Nat) :=
  if s.workerState = WorkerState.Killed then
    .error "This worker has been killed"
  else if s.workerState = WorkerState.Ready then .ok (s, none)
  else
    let r := startWorker s
    .ok (r.1, some r.2)

/-- A sequence of callers hitting ensureWorkerReady one after the other
(each proxy call runs it before sending), collecting each result. -/
def ensureMany : Nat → MTState → MTState × List (Except String (Option Nat))
  | 0, s => (s, [])
  | n + 1, s =>
    match ensureWorkerReady s with
    | .ok (s1, pid) =>
      let r := ensureMany n s1
      (r.1, .ok pid :: r.2)
    | .error e =>
      let r := ensureMany n s
      (r.1, .error e :: r.2)

/-- The payload promise built by delegateMsgEnsured: an async executor that
awaits ensureWorkerReady and then resolves with the payload.  A throw from
ensureWorkerReady is swallowed with the executor, leaving the payload
promise pending. -/
def delegatedPayloadPromise (s : MTState) (payload : α) : PromiseOutcome String α :=
  asyncExecutorResolve ((ensureWorkerReady s).map (fun _ => payload))

/-- What delegateMessage posts to the worker: the awaited payload when its
promise resolves, nothing when that promise never settles. -/
def postedForPayload (p : PromiseOutcome String α) : List α :=
  match p with
  | .resolved a => [a]
  | _ => []

/-- Outcome of the call promise as a function of the payload promise:
delegateMessage posts (and so a reply can arrive) only after the payload
promise resolves; when the payload promise never settles, neither does the
call promise. -/
def callOutcomeOfPayload (p : PromiseOutcome String α)
    (replyOutcome : α → PromiseOutcome ε β) : PromiseOutcome ε β :=
  match p with
  | .resolved a => replyOutcome a
  | _ => .pending

/-! ## Termination dispatch (EventManager in Event.ts and the terminate
branch of the worker handler)

Listeners are modelled by the outcome of the promise each returns; the
awaited join of pDispatch (Promise.all) yields the first rejection, if
any. -/

/-- The Promise.all join over already-started listener promises: ok when
every listener completed, otherwise the first rejection. -/
def pDispatch : List (Except ε Unit) → Except ε Unit
  | [] => .ok ()
  | .ok _ :: rs => pDispatch rs
  | .error e :: _ => .error e

def errOf : Except ε Unit → Option ε
  | .ok _ => none
  | .error e => some e

/-- Observable order of effects in the terminate branch. -/
inductive TermEvent where
  | invokeListener : Nat → TermEvent
  | joinAll : TermEvent
  | postReply : Option AppErr → TermEvent
  | closeWorker : TermEvent
deriving DecidableEq, Repr

/-- The terminate branch as an event trace.  Graceful: pDispatch starts
every registered listener (the invoke events) and awaits their join; a
rejection is caught and enveloped into the reply; the reply is posted and
close() runs.  Non-graceful: dispatch starts every listener without
awaiting anything, so no rejection can reach the catch, and the reply is
posted followed immediately by close(). -/
def terminateTrace (graceful : Bool) (ls : List (Except AppErr Unit)) : List TermEvent :=
  if graceful then
    (List.range ls.length).map TermEvent.invokeListener
      ++ [TermEvent.joinAll, TermEvent.postReply (errOf (pDispatch ls)), TermEvent.closeWorker]
  else
    (List.range ls.length).map TermEvent.invokeListener
      ++ [TermEvent.postReply none, TermEvent.closeWorker]

/-! ## Worker-side static state (the VThreadable module)

The static fields of VThreadable that the handlers read and write.
Provider factory callbacks are identified by numbers; their behaviour is
supplied by an environment mapping the callback id and the init options to
the surface object it returns (or the error it throws). -/

structure WorkerSideState where
  providerCallback : Option Nat
  connectedProvider : Option JSVal
  initStatusResponsePort : Option Nat
  initOptions : JSVal
  parentProxyAvailable : Bool
  terminateListeners : List (Except AppErr Unit)
  workerClosed : Bool

/-- Behaviour of the registered provider factory callbacks: callback id and
init options to the awaited surface object or thrown error. -/
abbrev CbEnv : Type := Nat → JSVal → Except AppErr JSVal

/-- Messages the worker posts on reply ports. -/
inductive WorkerPost where
  | pingReply : WorkerPost
  | initAlreadyReply : WorkerPost
  | initReply : Option ErrEnvelope → WorkerPost
  | execReply : ExecReply → WorkerPost
  | terminateReply : Option ErrEnvelope → WorkerPost

/-- tryBootup: when a provider is already connected it throws (the callers
never await it, so the rejection is swallowed and nothing is posted);
otherwise, once both a callback and the init response port are present, the
factory runs and the init reply (success or enveloped error) goes out on
that port. -/
def tryBootup (pf : FrameParser) (cenv : CbEnv) (s : WorkerSideState) :
    WorkerSideState × List WorkerPost :=
  match s.connectedProvider with
  | some _ => (s, [])
  | none =>
    match s.providerCallback, s.initStatusResponsePort with
    | some cb, some _ =>
      match cenv cb s.initOptions with
      | .ok provider =>
        ({ s with connectedProvider := some provider }, [WorkerPost.initReply none])
      | .error e => (s, [WorkerPost.initReply (some (encodeErr pf e))])
    | _, _ => (s, [])

/-- onStart: in the worker context, a second registration throws a
TypeError before anything else happens; otherwise the callback is stored
and tryBootup runs (its own throw, if any, is swallowed because the call is
not awaited).  The first component is the synchronously thrown error. -/
def onStart (pf : FrameParser) (cenv : CbEnv) (s : WorkerSideState) (cb : Nat) :
    Option String × WorkerSideState × List WorkerPost :=
  match s.providerCallback with
  | some _ =>
    (some "Looks like a callback has already been registered before, on one callback per Worker thread is allowed",
     s, [])
  | none =>
    let s1 := { s with providerCallback := some cb }
    let r := tryBootup pf cenv s1
    (none, r.1, r.2)

/-! ## The message handlers -/

/-- The fields an incoming message event can carry, after destructuring:
the discriminator field (absent or any value), the exec payload, the init
payload, the terminate payload, and the identity of the attached reply
port. -/
structure EventData where
  msgType : Option JSVal
  fnChain : List String
  args : List JSVal
  options : JSVal
  isParentAvailable : Bool
  graceful : Bool
  lastWords : JSVal
  port : Nat

def workerRecognizedTags : List String :=
  ["__vthread_ping", "__vthread_worker_init", "__vthread_parent_exec_child",
   "__vthread_worker_terminate_begin"]

def mainRecognizedTags : List String :=
  ["__vthread_child_exec_parent"]

/-- The provider surface the exec branch resolves against: undefined until
a provider has connected. -/
def providerVal (s : WorkerSideState) : JSVal :=
  match s.connectedProvider with
  | some v => v
  | none => .vundefined

/-- The terminate branch as a state effect: graceful awaits the pDispatch
join and envelopes its rejection into the reply, non-graceful fires the
listeners without awaiting them; either way the reply is posted and close()
runs. -/
def terminateBranch (pf : FrameParser) (s : WorkerSideState) (graceful : Bool) :
    WorkerSideState × List WorkerPost :=
  let err : Option ErrEnvelope :=
    if graceful then (errOf (pDispatch s.terminateListeners)).map (encodeErr pf)
    else none
  ({ s with workerClosed := true }, [WorkerPost.terminateReply err])

/-- handleMessageFromParent: the worker-side dispatcher.  Only a
string-valued type field enters the branch chain; the ping branch replies
ready, the init branch (replying early when a provider already connected)
records the options and the response port, builds the parent proxy when the
parent surface is available, and runs tryBootup; the exec branch dispatches
through handleExec against the connected provider; the terminate branch
runs the termination dispatch.  Any other message leaves the state alone
and posts nothing. -/
def handleMessageFromParent (pf : FrameParser) (cenv : CbEnv) (fenv : FnEnv)
    (s : WorkerSideState) (d : EventData) : WorkerSideState × List WorkerPost :=
  match d.msgType with
  | some (.vstr t) =>
    if t = "__vthread_ping" then (s, [WorkerPost.pingReply])
    else if t = "__vthread_worker_init" then
      let pre : List WorkerPost :=
        match s.connectedProvider with
        | some _ => [WorkerPost.initAlreadyReply]
        | none => []
      let s1 := { s with initOptions := d.options,
                         initStatusResponsePort := some d.port,
                         parentProxyAvailable :=
                           if d.isParentAvailable then true else s.parentProxyAvailable }
      let r := tryBootup pf cenv s1
      (r.1, pre ++ r.2)
    else if t = "__vthread_parent_exec_child" then
      (s, [WorkerPost.execReply (handleExec "worker" pf fenv (providerVal s) d.fnChain d.args)])
    else if t = "__vthread_worker_terminate_begin" then
      terminateBranch pf s d.graceful
    else (s, [])
  | _ => (s, [])

/-- handleWorkerMessage: the main-thread dispatcher.  Only the
child-exec-parent tag is recognized; it dispatches through handleExec
against the host surface (with the Host label in the TypeError message).
The handler mutates no VThread state, so its effect is the list of replies
it posts. -/
def handleWorkerMessage (pf : FrameParser) (fenv : FnEnv) (host : JSVal)
    (d : EventData) : List ExecReply :=
  match d.msgType with
  | some (.vstr t) =>
    if t = "__vthread_child_exec_parent" then
      [handleExec "Host" pf fenv host d.fnChain d.args]
    else []
  | _ => []

/-! ## Concrete fixtures for closed evaluations -/

/-- Remote frames captured where the example RangeError was thrown. -/
def c1RemoteFrames : List StackFrame :=
  [{ functionName := "fail", source := "    at fail (worker.js:3:9)" }]

/-- Local frames of the Error captured in the apply trap: the trampoline
frame followed by the real caller frame. -/
def c1LocalFrames : List StackFrame :=
  [{ functionName := "Object.apply", source := "    at Object.apply (vthread.js:10:1)" },
   { functionName := "main", source := "    at main (app.js:5:3)" }]

/-- The envelope of the example RangeError with one extra transportable
property. -/
def c1Envelope : ErrEnvelope :=
  { name := "RangeError", message := "bad", stackFrames := some c1RemoteFrames,
    props := [("code", "42")] }

def c1FailReply : ExecReply := { err := some c1Envelope, ret := .vundefined }

/-- Error constructors resolvable on the global self object. -/
def c1SelfGlobals : List String := ["Error", "TypeError", "RangeError"]

/-- A VThread instance whose worker has been killed. -/
def c2KilledState : MTState :=
  { workerState := .Killed, workerInitPromise := none, nextPromiseId := 0, connectStarts := 0 }

/-- The payload a proxy call would send after the kill. -/
def c2Payload : ExecPayload TVal :=
  { fnChain := ["fail"], args := [], tag := "__vthread_parent_exec_child" }

/-- A registry holding one marked value with one explicit buffer. -/
def c3Reg : Registry := [(TVal.obj 0, [TVal.buf 1])]

/-- Two termination listeners, the second one rejecting. -/
def c7Listeners : List (Except AppErr Unit) :=
  [Except.ok (), Except.error { name := "E", message := "boom" }]

/-- A fresh VThread still loading its worker. -/
def c8ExState : MTState :=
  { workerState := .Loading, workerInitPromise := none, nextPromiseId := 7, connectStarts := 0 }

/-- The worker-side statics right after the module loads. -/
def emptyWorkerState : WorkerSideState :=
  { providerCallback := none, connectedProvider := none, initStatusResponsePort := none,
    initOptions := .vundefined, parentProxyAvailable := false, terminateListeners := [],
    workerClosed := false }

/-- Worker-side statics after a first onStart registration. -/
def c9ExState : WorkerSideState := { emptyWorkerState with providerCallback := some 1 }

/-- A concrete factory behaviour: every callback returns an empty surface. -/
def cbEnv0 : CbEnv := fun _ _ => .ok (.vobj [])

/-- A message with an unrecognized string discriminator. -/
def c10UnknownMsg : EventData :=
  { msgType := some (.vstr "__vthread_unknown"), fnChain := [], args := [],
    options := .vundefined, isParentAvailable := false, graceful := true,
    lastWords := .vundefined, port := 0 }

/-- A message whose type field is a number rather than a string. -/
def c10NumTypeMsg : EventData :=
  { msgType := some (.vnum 3), fnChain := [], args := [],
    options := .vundefined, isParentAvailable := false, graceful := true,
    lastWords := .vundefined, port := 0 }

/-! ## Helper lemmas -/

theorem proxyGets_chain (ps : List String) (s : ChainState) :
    (proxyGets s ps).chain = s.chain ++ ps := by
  induction ps generalizing s with
  | nil => simp [proxyGets]
  | cons p rest ih =>
    simp [proxyGets] at ih ⊢
    rw [ih]
    simp [proxyGet]

theorem pDispatch_none_iff (ls : List (Except ε Unit)) :
    errOf (pDispatch ls) = none ↔ ∀ l ∈ ls, l = Except.ok () := by
  induction ls with
  | nil => simp [pDispatch, errOf]
  | cons l rest ih =>
    cases l with
    | ok u => cases u; simp [pDispatch, ih]
    | error e => simp [pDispatch, errOf]

theorem weakGet_weakDelete (r : Registry) (v : TVal) :
    weakGet (weakDelete r v) v = none := by
  induction r with
  | nil => rfl
  | cons e rest ih =>
    by_cases h : e.1 = v
    · simpa [weakDelete, weakGet, h] using ih
    · simpa [weakDelete, weakGet, h] using ih

/-! ## Claim theorems -/

/-- C5: a sequence of property reads on the call proxy appends each name to
the chain buffer and hands back the same proxy; the following invocation
snapshots exactly that chain in access order together with the argument
list, and resets the buffer so the next chain starts fresh. -/
theorem c5_chain_capture_exact (names names2 : List String) (args : List α) :
    (∀ (s : ChainState) (p : String),
        (proxyGet s p).1.chain = s.chain ++ [p] ∧ (proxyGet s p).2 = ProxyRef.self) ∧
    (proxyGets { chain := [] } names).chain = names ∧
    proxyApply (proxyGets { chain := [] } names) args
      = ({ chain := [] },
         { fnChain := names, args := args, tag := "__vthread_parent_exec_child" }) ∧
    (proxyGets (proxyApply (proxyGets { chain := [] } names) args).1 names2).chain = names2 := by
  refine ⟨fun s p => ⟨rfl, rfl⟩, ?_, ?_, ?_⟩
  · simpa using proxyGets_chain names { chain := [] }
  · have h := proxyGets_chain names { chain := [] }
    simp at h
    simp [proxyApply, h]
  · simpa using proxyGets_chain names2 { chain := [] }

/-- C6: an incoming chain/args execution request resolves its target by
walking the chain with a per-step fall back to the root surface; a
non-callable result is reported as a TypeError reply, and a callable one is
invoked with the surface as receiver and the given arguments, the reply
carrying its awaited return value. -/
theorem c6_exec_dispatch :
    (∀ (pf : FrameParser) (fenv : FnEnv) (provider : JSVal) (chain : List String)
        (args : List JSVal) (fname : String) (r : JSVal),
        resolveChain provider chain = .ok (.vfn fname) →
        fenv fname provider args = .ok r →
        handleExec "worker" pf fenv provider chain args = { err := none, ret := r }) ∧
    (∀ (pf : FrameParser) (fenv : FnEnv) (provider : JSVal) (chain : List String)
        (args : List JSVal) (v : JSVal),
        resolveChain provider chain = .ok v →
        (∀ fname, v ≠ .vfn fname) →
        ∃ m, handleExec "worker" pf fenv provider chain args
          = { err := some (encodeErr pf { name := "TypeError", message := m }),
              ret := .vundefined }) ∧
    (∀ (provider : JSVal) (p : String), resolveChain provider [p] = propAccess provider p) ∧
    (∀ (provider accu : JSVal) (p : String), accu ≠ JSVal.vundefined → accu ≠ JSVal.vnull →
        getProp accu p = JSVal.vundefined → resolveStep provider accu p = propAccess provider p) := by
  refine ⟨?_, ?_, ?_, ?_⟩
  · intro pf fenv provider chain args fname r h1 h2
    simp [handleExec, h1, h2]
  · intro pf fenv provider chain args v h1 h2
    cases v with
    | vfn fname => exact absurd rfl (h2 fname)
    | vundefined =>
      exact ⟨"worker." ++ displayVal .vundefined ++ " is not a function", by simp [handleExec, h1]⟩
    | vnull =>
      exact ⟨"worker." ++ displayVal .vnull ++ " is not a function", by simp [handleExec, h1]⟩
    | vbool b =>
      exact ⟨"worker." ++ displayVal (.vbool b) ++ " is not a function",
             by simp [handleExec, h1]⟩
    | vnum n =>
      exact ⟨"worker." ++ displayVal (.vnum n) ++ " is not a function",
             by simp [handleExec, h1]⟩
    | vstr s =>
      exact ⟨"worker." ++ displayVal (.vstr s) ++ " is not a function",
             by simp [handleExec, h1]⟩
    | vobj fields =>
      exact ⟨"worker." ++ displayVal (.vobj fields) ++ " is not a function",
             by simp [handleExec, h1]⟩
  · intro provider p
    have hstep : resolveStep provider (.vobj []) p = propAccess provider p := by
      simp [resolveStep, propAccess, getProp]
    cases h : propAccess provider p with
    | ok v => simp [resolveChain, List.foldlM, hstep, h]
    | error e => simp [resolveChain, List.foldlM, hstep, h]
  · intro provider accu p hu hn hget
    cases accu with
    | vundefined => exact absurd rfl hu
    | vnull => exact absurd rfl hn
    | vbool b => simp [resolveStep, propAccess, hget]
    | vnum n => simp [resolveStep, propAccess, hget]
    | vstr s => simp [resolveStep, propAccess, hget]
    | vfn f => simp [resolveStep, propAccess, hget]
    | vobj fields => simp [resolveStep, propAccess, hget]

/-- C6 witness: proxy.math.add(2,3) against the surface with nested
math.add resolves to the add function and replies 5. -/
theorem c6_exec_dispatch_witness :
    resolveChain mathSurface ["math", "add"] = .ok (.vfn "add") ∧
    mathEnv "add" mathSurface [.vnum 2, .vnum 3] = .ok (.vnum 5) ∧
    handleExec "worker" noFrames mathEnv mathSurface ["math", "add"] [.vnum 2, .vnum 3]
      = { err := none, ret := .vnum 5 } :=
  ⟨rfl, rfl,
   c6_exec_dispatch.1 noFrames mathEnv mathSurface ["math", "add"]
     [.vnum 2, .vnum 3] "add" (.vnum 5) rfl rfl⟩

/-- C1 (code defect): on an error reply, processMessage rebuilds exactly
the claimed error (resolved constructor, copied transportable properties,
remote-then-local merged stack with the trampoline frame dropped), but the
rebuilt error is thrown inside the async executor of the promise returned
by the apply trap, so that promise never settles: it is neither resolved
nor rejected, while the claim and the getWorkerProxy documentation say it
rejects. -/
theorem c1_remote_error_rebuilt_but_promise_never_rejects :
    processMessage c1SelfGlobals c1LocalFrames c1FailReply
      = .error { ctor := "RangeError", name := "RangeError", message := "bad",
                 props := [("code", "42")],
                 stack := "    at fail (worker.js:3:9)\n    at main (app.js:5:3)" } ∧
    applyTrapOutcome c1SelfGlobals c1LocalFrames c1FailReply = .pending ∧
    (∀ e, applyTrapOutcome c1SelfGlobals c1LocalFrames c1FailReply
        ≠ PromiseOutcome.rejected e) ∧
    (∀ v, applyTrapOutcome c1SelfGlobals c1LocalFrames c1FailReply
        ≠ PromiseOutcome.resolved v) := by
  refine ⟨rfl, rfl, ?_, ?_⟩
  · intro e h
    rw [show applyTrapOutcome c1SelfGlobals c1LocalFrames c1FailReply
          = PromiseOutcome.pending from rfl] at h
    exact PromiseOutcome.noConfusion h
  · intro v h
    rw [show applyTrapOutcome c1SelfGlobals c1LocalFrames c1FailReply
          = PromiseOutcome.pending from rfl] at h
    exact PromiseOutcome.noConfusion h

/-- C2 (code defect): a proxy call after the worker was killed does raise
the terminal error inside ensureWorkerReady and posts nothing to the
worker, but the error is swallowed by the async executors of
delegateMsgEnsured and delegateMessage: the payload promise, and with it
the call promise, stays pending for ever instead of rejecting. -/
theorem c2_post_kill_call_never_rejects :
    ensureWorkerReady c2KilledState = .error "This worker has been killed" ∧
    delegatedPayloadPromise c2KilledState c2Payload = .pending ∧
    postedForPayload (delegatedPayloadPromise c2KilledState c2Payload) = [] ∧
    (∀ replyOutcome : ExecPayload TVal → PromiseOutcome HydratedErr JSVal,
        callOutcomeOfPayload (delegatedPayloadPromise c2KilledState c2Payload) replyOutcome
          = .pending) ∧
    (∀ e, delegatedPayloadPromise c2KilledState c2Payload ≠ PromiseOutcome.rejected e) := by
  refine ⟨rfl, rfl, rfl, fun replyOutcome => rfl, ?_⟩
  intro e h
  rw [show delegatedPayloadPromise c2KilledState c2Payload
        = PromiseOutcome.pending from rfl] at h
  exact PromiseOutcome.noConfusion h

/-- C3 counterexample: a marked value sent as a return value is looked up
without removing its registry entry, so the first consult does not remove
the association and a second send of the same value transfers the same
buffers again, contradicting the claim that any consulting send is
single-use. -/
theorem c3_return_send_keeps_marking_counterexample :
    (returnTransferList c3Reg (TVal.obj 0)).1 = some [TVal.buf 1] ∧
    (returnTransferList c3Reg (TVal.obj 0)).2 = c3Reg ∧
    weakHas (returnTransferList c3Reg (TVal.obj 0)).2 (TVal.obj 0) = true ∧
    (returnTransferList (returnTransferList c3Reg (TVal.obj 0)).2 (TVal.obj 0)).1
      = some [TVal.buf 1] :=
  ⟨rfl, rfl, rfl, rfl⟩

/-- C3 amended: marking is single-use on the argument path only — sending
a marked value as a call argument transfers its buffers and removes the
association, so a second argument send transfers nothing; sending a marked
value as a return value reads the registry without removing the entry, so
a second return send transfers the same buffers again. -/
theorem c3_amended_single_use_for_args_only (r : Registry) (v : TVal) (bufs : List TVal)
    (h : weakGet r v = some bufs) :
    (consumeArgMarks r [v]).1 = [bufs] ∧
    weakHas (consumeArgMarks r [v]).2 v = false ∧
    (consumeArgMarks (consumeArgMarks r [v]).2 [v]).1 = [] ∧
    (∀ (r2 : Registry) (ret : TVal),
        (returnTransferList r2 ret).1 = weakGet r2 ret ∧ (returnTransferList r2 ret).2 = r2) := by
  have hstep : consumeArgMarks r [v] = ([bufs], weakDelete r v) := by
    simp [consumeArgMarks, h]
  refine ⟨by rw [hstep], ?_, ?_, fun r2 ret => ⟨rfl, rfl⟩⟩
  · rw [hstep]
    simp [weakHas, weakGet_weakDelete]
  · rw [hstep]
    simp [consumeArgMarks, weakGet_weakDelete]

/-- C3 amended witness: at the concrete registry, the argument path
transfers the buffer once and nothing the second time. -/
theorem c3_amended_single_use_for_args_only_witness :
    weakGet c3Reg (TVal.obj 0) = some [TVal.buf 1] ∧
    (consumeArgMarks c3Reg [TVal.obj 0]).1 = [[TVal.buf 1]] ∧
    weakHas (consumeArgMarks c3Reg [TVal.obj 0]).2 (TVal.obj 0) = false ∧
    (consumeArgMarks (consumeArgMarks c3Reg [TVal.obj 0]).2 [TVal.obj 0]).1 = [] :=
  ⟨rfl,
   (c3_amended_single_use_for_args_only c3Reg (TVal.obj 0) [TVal.buf 1] rfl).1,
   (c3_amended_single_use_for_args_only c3Reg (TVal.obj 0) [TVal.buf 1] rfl).2.1,
   (c3_amended_single_use_for_args_only c3Reg (TVal.obj 0) [TVal.buf 1] rfl).2.2.1⟩

/-- C4 counterexample: marking a non-object value such as the number 42,
which is not a transferable-buffer-like type, does not throw a TypeError;
markAsVTransferable returns normally and records nothing, because its whole
body is guarded by a typeof object test. -/
theorem c4_non_object_mark_noop_counterexample :
    markAsVTransferable [] (TVal.prim 42) [] = .ok [] ∧
    (∀ msg, markAsVTransferable [] (TVal.prim 42) [] ≠ .error msg) ∧
    weakHas [] (TVal.prim 42) = false := by
  refine ⟨rfl, ?_, rfl⟩
  intro msg h
  rw [show markAsVTransferable [] (TVal.prim 42) []
        = Except.ok ([] : Registry) from rfl] at h
  exact Except.noConfusion h

/-- C4 amended: for a value of object type, mark treats the value itself
as the sole transferable when no buffers are listed, throws a TypeError
synchronously when any effective entry is not buffer-like, and otherwise
records the association; for a non-object value, mark is a no-op that
neither throws nor records. -/
theorem c4_amended_mark_behavior (r : Registry) (v : TVal) (ts : List TVal) :
    (v.isObjectType = true →
       (if ts.isEmpty then [v] else ts).all TVal.isBufferLike = true →
       markAsVTransferable r v ts = .ok (weakSet r v (if ts.isEmpty then [v] else ts))) ∧
    (v.isObjectType = true →
       (if ts.isEmpty then [v] else ts).all TVal.isBufferLike = false →
       markAsVTransferable r v ts
         = .error "Only ArrayBuffer(s) and ImageBitmap(s) can be transfered") ∧
    (v.isObjectType = false → markAsVTransferable r v ts = .ok r) ∧
    (v.isObjectType = true → ts = [] →
       markAsVTransferable r v ts = markAsVTransferable r v [v]) := by
  refine ⟨?_, ?_, ?_, ?_⟩
  · intro hobj hall
    simp only [markAsVTransferable, hobj, hall, eq_self_iff_true, if_true]
  · intro hobj hall
    simp only [markAsVTransferable, hobj, hall, eq_self_iff_true, if_true,
               Bool.false_eq_true, if_false]
  · intro hobj
    simp only [markAsVTransferable, hobj, Bool.false_eq_true, if_false]
  · intro hobj hts
    subst hts
    by_cases hv : TVal.isBufferLike v
    · simp [markAsVTransferable, hobj, hv]
    · simp [markAsVTransferable, hobj, hv]

/-- C4 amended witness: marking a bare ArrayBuffer with no explicit list
records the buffer itself as the sole transferable. -/
theorem c4_amended_mark_behavior_witness :
    (TVal.buf 0).isObjectType = true ∧
    markAsVTransferable [] (TVal.buf 0) [] = .ok [(TVal.buf 0, [TVal.buf 0])] :=
  ⟨rfl, by
    have h := (c4_amended_mark_behavior [] (TVal.buf 0) []).1 rfl rfl
    simpa [weakSet, weakDelete] using h⟩

/-- Helper: once a connect promise is cached and the worker is neither
Ready nor Killed, further ensureWorkerReady callers leave the state alone
and all receive the same promise. -/
theorem ensureMany_stable (n : Nat) (s : MTState) (pid : Nat)
    (hkill : s.workerState ≠ .Killed) (hready : s.workerState ≠ .Ready)
    (hp : s.workerInitPromise = some pid) :
    ensureMany n s = (s, List.replicate n (.ok (some pid))) := by
  have hstep : ensureWorkerReady s = .ok (s, some pid) := by
    simp [ensureWorkerReady, hkill, hready, startWorker, hp]
  induction n with
  | zero => simp [ensureMany]
  | succ m ih =>
    simp [ensureMany, hstep, ih, List.replicate_succ]

/-- C7: the terminate branch starts every registered listener in both
modes; with graceful true it awaits their parallel join before posting the
termination reply and closing, the reply enveloping the first rejection if
any (and carrying none exactly when every listener completed); with
graceful false there is no join, the reply carries no error and the close
follows immediately; in every case the trace ends with the worker being
destroyed, and the state effect marks the worker closed with exactly one
terminate reply posted. -/
theorem c7_terminate_listener_dispatch (graceful : Bool) (ls : List (Except AppErr Unit)) :
    (∀ i, i < ls.length → TermEvent.invokeListener i ∈ terminateTrace graceful ls) ∧
    (graceful = true →
      terminateTrace graceful ls
          = (List.range ls.length).map TermEvent.invokeListener
              ++ [TermEvent.joinAll, TermEvent.postReply (errOf (pDispatch ls)),
                  TermEvent.closeWorker] ∧
      (errOf (pDispatch ls) = none ↔ ∀ l ∈ ls, l = Except.ok ())) ∧
    (graceful = false →
      terminateTrace graceful ls
          = (List.range ls.length).map TermEvent.invokeListener
              ++ [TermEvent.postReply none, TermEvent.closeWorker] ∧
      TermEvent.joinAll ∉ terminateTrace graceful ls) ∧
    (terminateTrace graceful ls).getLast? = some TermEvent.closeWorker ∧
    (∀ (pf : FrameParser) (s : WorkerSideState), s.terminateListeners = ls →
        (terminateBranch pf s graceful).1.workerClosed = true ∧
        (terminateBranch pf s graceful).2
          = [WorkerPost.terminateReply
               (if graceful then (errOf (pDispatch ls)).map (encodeErr pf) else none)]) := by
  refine ⟨?_, ?_, ?_, ?_, ?_⟩
  · intro i hi
    cases graceful <;> simp [terminateTrace, hi]
  · intro hg
    subst hg
    exact ⟨by simp [terminateTrace], pDispatch_none_iff ls⟩
  · intro hg
    subst hg
    refine ⟨by simp [terminateTrace], ?_⟩
    simp [terminateTrace]
  · cases graceful <;>
      simp [terminateTrace, List.getLast?_append]
  · intro pf s hs
    subst hs
    cases graceful <;> simp [terminateBranch]

/-- C7 witness: two listeners, the second rejecting; gracefully the reply
envelopes the rejection after the join, non-gracefully the reply carries
none, and the worker closes in both modes. -/
theorem c7_terminate_listener_dispatch_witness :
    (terminateTrace true c7Listeners
        = [TermEvent.invokeListener 0, TermEvent.invokeListener 1, TermEvent.joinAll,
           TermEvent.postReply (some { name := "E", message := "boom" }),
           TermEvent.closeWorker] ∧
      (errOf (pDispatch c7Listeners) = none ↔ ∀ l ∈ c7Listeners, l = Except.ok ())) ∧
    (terminateTrace false c7Listeners
        = [TermEvent.invokeListener 0, TermEvent.invokeListener 1,
           TermEvent.postReply none, TermEvent.closeWorker] ∧
      TermEvent.joinAll ∉ terminateTrace false c7Listeners) := by
  have h1 := (c7_terminate_listener_dispatch true c7Listeners).2.1 rfl
  have h2 := (c7_terminate_listener_dispatch false c7Listeners).2.2.1 rfl
  refine ⟨⟨?_, h1.2⟩, ⟨?_, h2.2⟩⟩
  · rw [h1.1]; rfl
  · rw [h2.1]; rfl

/-- C8: proxy calls issued while the worker is Loading or Listening all
trigger the connect sequence first, and concurrent callers share one
in-flight connect operation: every caller receives the same promise, only
one connect executor ever starts, and that executor sends the ping
handshake (when still Loading) followed by exactly one init message. -/
theorem c8_connect_single_flight (s : MTState) (k : Nat)
    (hstate : s.workerState = .Loading ∨ s.workerState = .Listening)
    (hfresh : s.workerInitPromise = none) :
    (ensureMany (k + 1) s).2 = List.replicate (k + 1) (.ok (some s.nextPromiseId)) ∧
    (ensureMany (k + 1) s).1.connectStarts = s.connectStarts + 1 ∧
    (ensureMany (k + 1) s).1.workerInitPromise = some s.nextPromiseId ∧
    (ensureMany (k + 1) s).1.workerState = s.workerState ∧
    (connectExecutorMsgs s.workerState).count ConnectMsg.initMsg = 1 ∧
    (s.workerState = .Loading →
       connectExecutorMsgs s.workerState = [ConnectMsg.ping, ConnectMsg.initMsg]) ∧
    (s.workerState = .Listening →
       connectExecutorMsgs s.workerState = [ConnectMsg.initMsg]) := by
  have hkill : s.workerState ≠ .Killed := by
    rcases hstate with h | h <;> simp [h]
  have hready : s.workerState ≠ .Ready := by
    rcases hstate with h | h <;> simp [h]
  have hfirst : ensureWorkerReady s
      = .ok ({ s with workerInitPromise := some s.nextPromiseId,
                      nextPromiseId := s.nextPromiseId + 1,
                      connectStarts := s.connectStarts + 1 },
             some s.nextPromiseId) := by
    simp [ensureWorkerReady, hkill, hready, startWorker, hfresh]
  have hrest := ensureMany_stable k
      { s with workerInitPromise := some s.nextPromiseId,
               nextPromiseId := s.nextPromiseId + 1,
               connectStarts := s.connectStarts + 1 }
      s.nextPromiseId hkill hready rfl
  have hmany : ensureMany (k + 1) s
      = ({ s with workerInitPromise := some s.nextPromiseId,
                  nextPromiseId := s.nextPromiseId + 1,
                  connectStarts := s.connectStarts + 1 },
         .ok (some s.nextPromiseId) :: List.replicate k (.ok (some s.nextPromiseId))) := by
    simp [ensureMany, hfirst, hrest]
  refine ⟨?_, ?_, ?_, ?_, ?_, ?_, ?_⟩
  · rw [hmany, List.replicate_succ]
  · rw [hmany]
  · rw [hmany]
  · rw [hmany]
  · rcases hstate with h | h <;> simp [connectExecutorMsgs, h, WorkerState.toNat]
  · intro h; simp [connectExecutorMsgs, h, WorkerState.toNat]
  · intro h; simp [connectExecutorMsgs, h, WorkerState.toNat]

/-- C8 witness: three concurrent callers against a fresh Loading worker all
receive promise 7 and exactly one connect executor starts. -/
theorem c8_connect_single_flight_witness :
    (c8ExState.workerState = .Loading ∨ c8ExState.workerState = .Listening) ∧
    c8ExState.workerInitPromise = none ∧
    (ensureMany 3 c8ExState).2 = List.replicate 3 (.ok (some 7)) ∧
    (ensureMany 3 c8ExState).1.connectStarts = 1 ∧
    connectExecutorMsgs c8ExState.workerState = [ConnectMsg.ping, ConnectMsg.initMsg] :=
  ⟨Or.inl rfl, rfl,
   (c8_connect_single_flight c8ExState 2 (Or.inl rfl) rfl).1,
   (c8_connect_single_flight c8ExState 2 (Or.inl rfl) rfl).2.1,
   (c8_connect_single_flight c8ExState 2 (Or.inl rfl) rfl).2.2.2.2.2.1 rfl⟩

/-- C9: a second onStart registration after a callback has already been
stored throws a TypeError synchronously, posts nothing on any channel, and
leaves the first registration in place. -/
theorem c9_second_onstart_rejected (pf : FrameParser) (cenv : CbEnv)
    (s : WorkerSideState) (cb0 cb : Nat) (h : s.providerCallback = some cb0) :
    onStart pf cenv s cb
      = (some "Looks like a callback has already been registered before, on one callback per Worker thread is allowed",
         s, []) ∧
    (onStart pf cenv s cb).2.1.providerCallback = some cb0 ∧
    (onStart pf cenv s cb).2.2 = [] := by
  have hmain : onStart pf cenv s cb
      = (some "Looks like a callback has already been registered before, on one callback per Worker thread is allowed",
         s, []) := by
    simp [onStart, h]
  exact ⟨hmain, by rw [hmain]; exact h, by rw [hmain]⟩

/-- C9 witness: with callback 1 already registered, registering callback 2
throws, posts nothing, and callback 1 stays registered. -/
theorem c9_second_onstart_rejected_witness :
    c9ExState.providerCallback = some 1 ∧
    onStart noFrames cbEnv0 c9ExState 2
      = (some "Looks like a callback has already been registered before, on one callback per Worker thread is allowed",
         c9ExState, []) ∧
    (onStart noFrames cbEnv0 c9ExState 2).2.1.providerCallback = some 1 :=
  ⟨rfl,
   (c9_second_onstart_rejected noFrames cbEnv0 c9ExState 1 2 rfl).1,
   (c9_second_onstart_rejected noFrames cbEnv0 c9ExState 1 2 rfl).2.1⟩

/-- C10: a message whose data has no string-valued type field, or whose
type is not one of the recognized protocol tags, makes the receiving
handler do nothing: the worker-side handler returns the state unchanged
and posts nothing, and the main-thread handler posts nothing. -/
theorem c10_unrecognized_message_noop (pf : FrameParser) (cenv : CbEnv) (fenv : FnEnv)
    (s : WorkerSideState) (host : JSVal) (d : EventData) :
    ((∀ t, d.msgType = some (JSVal.vstr t) → t ∉ workerRecognizedTags) →
       handleMessageFromParent pf cenv fenv s d = (s, [])) ∧
    ((∀ t, d.msgType = some (JSVal.vstr t) → t ∉ mainRecognizedTags) →
       handleWorkerMessage pf fenv host d = []) := by
  constructor
  · intro h
    match hd : d.msgType with
    | none => simp [handleMessageFromParent, hd]
    | some .vundefined => simp [handleMessageFromParent, hd]
    | some .vnull => simp [handleMessageFromParent, hd]
    | some (.vbool b) => simp [handleMessageFromParent, hd]
    | some (.vnum n) => simp [handleMessageFromParent, hd]
    | some (.vfn f) => simp [handleMessageFromParent, hd]
    | some (.vobj fs) => simp [handleMessageFromParent, hd]
    | some (.vstr t) =>
      have ht := h t hd
      simp [workerRecognizedTags] at ht
      simp [handleMessageFromParent, hd, ht]
  · intro h
    match hd : d.msgType with
    | none => simp [handleWorkerMessage, hd]
    | some .vundefined => simp [handleWorkerMessage, hd]
    | some .vnull => simp [handleWorkerMessage, hd]
    | some (.vbool b) => simp [handleWorkerMessage, hd]
    | some (.vnum n) => simp [handleWorkerMessage, hd]
    | some (.vfn f) => simp [handleWorkerMessage, hd]
    | some (.vobj fs) => simp [handleWorkerMessage, hd]
    | some (.vstr t) =>
      have ht := h t hd
      simp [mainRecognizedTags] at ht
      simp [handleWorkerMessage, hd, ht]

/-- C10 witness: an unknown string tag and a numeric type field both leave
the worker state untouched with nothing posted on either peer. -/
theorem c10_unrecognized_message_noop_witness :
    handleMessageFromParent noFrames cbEnv0 mathEnv emptyWorkerState c10UnknownMsg
      = (emptyWorkerState, []) ∧
    handleWorkerMessage noFrames mathEnv mathSurface c10UnknownMsg = [] ∧
    handleMessageFromParent noFrames cbEnv0 mathEnv emptyWorkerState c10NumTypeMsg
      = (emptyWorkerState, []) ∧
    handleWorkerMessage noFrames mathEnv mathSurface c10NumTypeMsg = [] := by
  have hw1 : ∀ t, c10UnknownMsg.msgType = some (JSVal.vstr t) → t ∉ workerRecognizedTags := by
    intro t ht
    simp [c10UnknownMsg] at ht
    subst ht
    decide
  have hm1 : ∀ t, c10UnknownMsg.msgType = some (JSVal.vstr t) → t ∉ mainRecognizedTags := by
    intro t ht
    simp [c10UnknownMsg] at ht
    subst ht
    decide
  have hw2 : ∀ t, c10NumTypeMsg.msgType = some (JSVal.vstr t) → t ∉ workerRecognizedTags := by
    intro t ht
    simp [c10NumTypeMsg] at ht
  have hm2 : ∀ t, c10NumTypeMsg.msgType = some (JSVal.vstr t) → t ∉ mainRecognizedTags := by
    intro t ht
    simp [c10NumTypeMsg] at ht
  exact ⟨(c10_unrecognized_message_noop noFrames cbEnv0 mathEnv emptyWorkerState
            mathSurface c10UnknownMsg).1 hw1,
         (c10_unrecognized_message_noop noFrames cbEnv0 mathEnv emptyWorkerState
            mathSurface c10UnknownMsg).2 hm1,
         (c10_unrecognized_message_noop noFrames cbEnv0 mathEnv emptyWorkerState
            mathSurface c10NumTypeMsg).1 hw2,
         (c10_unrecognized_message_noop noFrames cbEnv0 mathEnv emptyWorkerState
            mathSurface c10NumTypeMsg).2 hm2⟩

end VThreadSpec
